import Mathlib

/-!
Verification of the natural-language specification of the nathy-vtuber
backend (Python) against a shallow Lean embedding of its source.

The embedding translates the relevant parts of `backend/memory.py`,
`backend/llm_utils.py` and `backend/websocket_handler.py`.  Machine
strings are Lean `String`s (lists of unicode chars); Python string
operations (`strip`, `lower`, `split`, `in`, `startswith`, `endswith`)
are re-implemented below for the character set the program actually
uses (ASCII plus the accented Portuguese letters appearing in the
source's literals).  Fallible calls (the SQLite store, the completion
engine, the TTS engine, numpy slice assignment) are `Except`-valued,
and the source's `try/except` blocks are translated explicitly.
Wall-clock times are modelled in integer milliseconds.
-/

namespace NathyVtuber

/-- Python error value: carries only the message text. -/
structure PyErr where
  msg : String
deriving DecidableEq, Repr

/-- Lowercasing of one character as Python `str.lower` acts on the
alphabet used by this program: ASCII letters plus the accented
Portuguese uppercase letters. -/
def pyLowerChar (c : Char) : Char :=
  match c with
  | 'Á' => 'á' | 'À' => 'à' | 'Â' => 'â' | 'Ã' => 'ã'
  | 'É' => 'é' | 'È' => 'è' | 'Ê' => 'ê'
  | 'Í' => 'í' | 'Ì' => 'ì' | 'Î' => 'î'
  | 'Ó' => 'ó' | 'Ò' => 'ò' | 'Ô' => 'ô' | 'Õ' => 'õ'
  | 'Ú' => 'ú' | 'Ù' => 'ù' | 'Û' => 'û'
  | 'Ç' => 'ç'
  | _ => c.toLower

/-- Python `str.lower` over the program's alphabet. -/
def pyLower (s : String) : String :=
  ⟨s.data.map pyLowerChar⟩

/-- Python `str.strip()`: remove leading and trailing whitespace. -/
def pyStrip (s : String) : String :=
  ⟨((s.data.dropWhile Char.isWhitespace).reverse.dropWhile Char.isWhitespace).reverse⟩

/-- Helper for `pySplit`: accumulate the current word (reversed) while
walking the character list. -/
def wordsAux : List Char → List Char → List (List Char)
  | [], cur => if cur.isEmpty then [] else [cur.reverse]
  | c :: cs, cur =>
    if c.isWhitespace then
      if cur.isEmpty then wordsAux cs [] else cur.reverse :: wordsAux cs []
    else wordsAux cs (c :: cur)

/-- Python `str.split()` with no argument: split on whitespace runs,
dropping empty pieces. -/
def pySplit (s : String) : List String :=
  (wordsAux s.data []).map fun l => ⟨l⟩

/-- Does the first character list start with the second one?  (Python
`str.startswith`, over char lists.) -/
def startsW : List Char → List Char → Bool
  | _, [] => true
  | [], _ :: _ => false
  | c :: cs, p :: ps => c == p && startsW cs ps

/-- Python `needle in haystack` substring test, over char lists. -/
def containsSub (needle : List Char) : List Char → Bool
  | [] => startsW [] needle
  | c :: t => startsW (c :: t) needle || containsSub needle t

/-- Python `p in s` on strings. -/
def pyContains (needle hay : String) : Bool :=
  containsSub needle.data hay.data

/-- Python `s.startswith(p)` on strings. -/
def pyStartsWith (s p : String) : Bool :=
  startsW s.data p.data

/-- Python `s.endswith(p)` on strings. -/
def pyEndsWith (s p : String) : Bool :=
  startsW s.data.reverse p.data.reverse

/-- Python `"sep".join(lines)` specialised to the newline separator
used in `memory_block`. -/
def joinLines : List String → String
  | [] => ""
  | [x] => x
  | x :: y :: xs => x ++ "\n" ++ joinLines (y :: xs)

/-! ## backend/memory.py -/

/-- One row of the `facts` table: owner, text, creation timestamp.
The SQLite AUTOINCREMENT id is the position in the list (insertion
order). -/
structure FactRow where
  user_id : String
  fact : String
  created_at : String
deriving DecidableEq, Repr

/-- MemoryStore.add_fact: trim; blank text is a silent no-op;
otherwise insert one row with the server-assigned timestamp `now`. -/
def add_fact (store : List FactRow) (user_id fact now : String) : List FactRow :=
  let fact_clean := pyStrip fact
  if fact_clean = "" then store
  else store ++ [⟨user_id, fact_clean, now⟩]

/-- Character class of `_tokenize` in memory.py: `ch.isalnum() or ch in
"_áàâãéèêíìîóòôõúùûç"` (ASCII alnum suffices after lowercasing). -/
def tokChar (c : Char) : Bool :=
  c.isAlphanum || ("_áàâãéèêíìîóòôõúùûç".data.contains c)

/-- Helper for `tokenize`: walk the chars, accumulating the current
run (reversed). -/
def tokenizeAux : List Char → List Char → List (List Char)
  | [], cur => if cur.isEmpty then [] else [cur.reverse]
  | c :: cs, cur =>
    if tokChar c then tokenizeAux cs (c :: cur)
    else if cur.isEmpty then tokenizeAux cs [] else cur.reverse :: tokenizeAux cs []

/-- memory.py `_tokenize`: maximal runs of alphanumeric/accented
characters. -/
def tokenize (s : String) : List String :=
  (tokenizeAux s.data []).map fun l => ⟨l⟩

/-- Score of one fact against the query tokens: the number of tokens
occurring in the lowercased fact (each token counted once). -/
def factScore (tokens : List String) (fact : String) : Nat :=
  (tokens.filter fun t => pyContains t (pyLower fact)).length

/-- Stable insertion for the descending-by-score sort: place `x` before
the first element with score not above `x`'s (so earlier elements keep
their relative order among equal scores, as Python's stable
`list.sort(reverse=True)` does). -/
def insertDesc (x : Nat × String) : List (Nat × String) → List (Nat × String)
  | [] => [x]
  | y :: ys => if x.1 < y.1 then y :: insertDesc x ys else x :: y :: ys

/-- Stable descending sort by score, mirroring
`scored.sort(key=lambda x: x[0], reverse=True)`. -/
def sortDesc : List (Nat × String) → List (Nat × String)
  | [] => []
  | x :: xs => insertDesc x (sortDesc xs)

/-- The first output loop of `get_top_facts`: skip already-seen texts,
append, and break once `len(out) >= limit`.  Returns the output list
and the `seen` set (as a list). -/
def scoredLoop (limit : Nat) : List (Nat × String) → List String → List String →
    List String × List String
  | [], out, seen => (out, seen)
  | (_, f) :: rest, out, seen =>
    if f ∈ seen then scoredLoop limit rest out seen
    else
      let out' := out ++ [f]
      let seen' := seen ++ [f]
      if limit ≤ out'.length then (out', seen') else scoredLoop limit rest out' seen'

/-- The fallback loop of `get_top_facts`: as in the source, `seen` is
consulted but never extended, and the loop breaks once
`len(out2) >= min(limit, 3)` (checked after the conditional append). -/
def fallbackLoop (m : Nat) (seen : List String) : List String → List String → List String
  | [], out2 => out2
  | f :: rest, out2 =>
    let out2' := if f ∈ seen then out2 else out2 ++ [f]
    if m ≤ out2'.length then out2' else fallbackLoop m seen rest out2'

/-- MemoryStore.get_top_facts.  `store` is the full facts table in
insertion (id) order; the SQL query selects this user's facts in
descending id order, limited to 200. -/
def get_top_facts (store : List FactRow) (user_id query : String) (limit : Nat) :
    List String :=
  let q := pyLower (pyStrip query)
  let tokens := (tokenize q).filter fun t => 3 ≤ t.length
  let rows := (((store.filter fun r => r.user_id == user_id).map FactRow.fact).reverse).take 200
  let scored := rows.filterMap fun f =>
    let score := factScore tokens f
    if 0 < score then some (score, f) else none
  let sorted := sortDesc scored
  let p := scoredLoop limit sorted [] []
  if p.1 ≠ [] then p.1 else fallbackLoop (min limit 3) p.2 rows []

/-! ## backend/llm_utils.py -/

/-- One role-tagged chat message. -/
structure ChatMsg where
  role : String
  content : String
deriving DecidableEq, Repr

/-- The fixed introductory line of the memory block (with the
surrounding newlines of the f-string). -/
def memoryIntro : String := "\n\nMemórias relevantes sobre o usuário:\n"

/-- llm_utils.build_messages.  The store's `get_top_facts` call is the
only fallible step inside the `try`; it is passed in as an
`Except`-valued oracle `getFacts` so that both the success and the
failure branch of the source's `try/except` are covered. -/
def build_messages (getFacts : String → String → Nat → Except PyErr (List String))
    (user_id user_text system_prompt : String) : List ChatMsg :=
  match getFacts user_id user_text 6 with
  | .error _ =>
    [⟨"system", system_prompt⟩, ⟨"user", user_text⟩]
  | .ok facts =>
    let memory_block := if facts.isEmpty then "" else joinLines (facts.map fun f => "- " ++ f)
    let final_system_prompt :=
      if pyStrip memory_block = "" then system_prompt
      else system_prompt ++ memoryIntro ++ memory_block
    [⟨"system", final_system_prompt⟩, ⟨"user", user_text⟩]

/-- The first-person declarative fact patterns of
`maybe_extract_fact`, verbatim from the source (including its repeated
"eu moro em " entry). -/
def factPatterns : List String :=
  ["meu nome é ", "eu me chamo ", "eu gosto de ", "eu não gosto de ",
   "minha comida favorita é ", "minha cor favorita é ", "eu moro em ",
   "eu tenho ", "eu não tenho ", "eu sou ", "eu não sou ",
   "eu trabalho como ", "eu estudo ", "eu moro em ", "eu nasci em ",
   "meu aniversário é ", "eu tenho medo de ", "eu adoro ", "eu odeio ",
   "eu prefiro "]

/-- The interrogative patterns of `maybe_extract_fact`, verbatim from
the source. -/
def questionPatterns : List String :=
  ["quem é ", "o que é ", "qual é ", "quando é ", "onde fica ",
   "por que ", "como é "]

/-- llm_utils.maybe_extract_fact. -/
def maybe_extract_fact (user_text : String) : Option String :=
  let t := pyStrip user_text
  if t = "" then none
  else
    let lower := pyLower t
    if factPatterns.any fun p => pyStartsWith lower p then some t
    else if questionPatterns.any fun p => pyStartsWith lower p then none
    else if (pySplit t).length ≤ 15 &&
        (pyEndsWith t "." || pyEndsWith t "!" || pyEndsWith t "?") then some t
    else none

/-! ## backend/websocket_handler.py — AudioBuffer -/

/-- The circular audio buffer: a fixed-length sample array and the two
window indices.  Samples are modelled as integers (their numeric value
plays no role in the claims). -/
structure AudioBuffer where
  data : List Int
  start_idx : Nat
  end_idx : Nat
deriving DecidableEq, Repr

/-- Numpy slice assignment `data[a:b] = src` on a 1-d array: indices
are clamped to the array length; the assignment succeeds when the
source length equals the slice length (or is 1, numpy's scalar
broadcast), and otherwise raises a broadcast `ValueError`. -/
def sliceAssign (data : List Int) (a b : Nat) (src : List Int) :
    Except PyErr (List Int) :=
  let n := data.length
  let lo := min a n
  let destLen := min b n - lo
  if src.length = destLen then
    .ok (data.take lo ++ src ++ data.drop (lo + destLen))
  else if src.length = 1 then
    .ok (data.take lo ++ List.replicate destLen (src.getD 0 0) ++ data.drop (lo + destLen))
  else .error ⟨"could not broadcast"⟩

/-- AudioBuffer.append, line for line: compute the available space with
Python's nonnegative `%`, advance `start_idx` to discard old data when
full, then write the chunk with one or two numpy slice assignments
(the wrap-around case).  The `Except` result makes a numpy broadcast
error explicit. -/
def AudioBuffer.append (buf : AudioBuffer) (chunk : List Int) :
    Except PyErr AudioBuffer :=
  let n := buf.data.length
  let chunk_size := chunk.length
  if chunk_size = 0 then .ok buf
  else
    let window := (buf.end_idx + n - buf.start_idx) % n
    let available := n - window
    let start' :=
      if available < chunk_size then (buf.start_idx + (chunk_size - available)) % n
      else buf.start_idx
    let e := (buf.end_idx + chunk_size) % n
    if buf.end_idx < e then
      match sliceAssign buf.data buf.end_idx e chunk with
      | .error err => .error err
      | .ok d => .ok ⟨d, start', e⟩
    else
      let remaining := n - buf.end_idx
      match sliceAssign buf.data buf.end_idx n (chunk.take remaining) with
      | .error err => .error err
      | .ok d1 =>
        match sliceAssign d1 0 e (chunk.drop remaining) with
        | .error err => .error err
        | .ok d2 => .ok ⟨d2, start', e⟩

/-! ## backend/websocket_handler.py — fallback responses -/

/-- Greeting keywords of `_generate_fallback_response`. -/
def greetingWords : List String := ["oi", "ola", "olá", "eai", "e aí"]

/-- Question keywords of `_generate_fallback_response`. -/
def questionWords : List String := ["qual", "como", "onde", "quando", "por que"]

/-- Compliment keywords of `_generate_fallback_response`. -/
def complimentWords : List String := ["linda", "bonita", "legal", "gostosa", "maravilhosa"]

/-- Canned greeting replies. -/
def greetingReplies : List String :=
  ["Oieee! Tudo bem? 😊", "Olá! Que bom conversar com você! 🌸",
   "E aí! Sumida! 😄", "Oiiee! Como vai? ✨"]

/-- Canned question replies. -/
def questionReplies : List String :=
  ["Hmm, boa pergunta! Mas sem o Ollama eu não consigo pensar muito fundo... 🤔",
   "Nossa, você me pegou! Preciso do meu cérebro AI para responder direito! 🧠",
   "Essa é difícil! Meu superpoder AI está em manutenção! 😅",
   "Bom... sem meus superpoderes de IA, fico um pouco limitada! 🤖"]

/-- Canned compliment replies. -/
def complimentReplies : List String :=
  ["Awwwn, você é muito gentil! 😊💕", "Nossa, obrigada! Fiquei toda corada! 🌸",
   "Para de! Você me deixa sem jeito! 😄", "Mashiaaa! Você é o melhor! ✨"]

/-- Canned default replies. -/
def defaultReplies : List String :=
  ["Legal! Mas sem o Ollama eu não consigo responder muito bem... 😅",
   "Hmm, interessante! Preciso do meu cérebro AI para conversar direitinho! 🤖",
   "Nossa, você sabe que sem meu superpoder de IA fico meio limitada? 🤔",
   "Legal demais! Mas para responder melhor, preciso do Ollama rodando! 🌸"]

/-- `random.choice(l)` with the random draw made explicit as a
selector index reduced modulo the list length. -/
def pickChoice (l : List String) (sel : Nat) : String :=
  l.getD (sel % l.length) ""

/-- VTuberWebSocketHandler._generate_fallback_response: keyword
categories checked in source order (greeting, then question, then
compliment, then default). -/
def generateFallbackResponse (user_text : String) (sel : Nat) : String :=
  let text_lower := pyLower user_text
  if greetingWords.any fun w => pyContains w text_lower then
    pickChoice greetingReplies sel
  else if pyContains "?" user_text || (questionWords.any fun w => pyContains w text_lower) then
    pickChoice questionReplies sel
  else if complimentWords.any fun w => pyContains w text_lower then
    pickChoice complimentReplies sel
  else
    pickChoice defaultReplies sel

/-! ## backend/websocket_handler.py — the typed-text turn -/

/-- Outbound frames sent over the websocket during a typed-text turn. -/
inductive OutMsg where
  | transcription (text : String)
  | response (text : String)
  | errMsg (text : String)
  | audioOut (samples : List Int)
deriving DecidableEq, Repr

/-- The tail of `_process_text_message` after the response text is
fixed: send the `response` frame, then synthesize; a TTS failure
raises (caught by the enclosing handler) after the reply was already
sent. -/
def replyAndTts (tts : String → Except String (List Int))
    (sent : List OutMsg) (response_text : String) : List OutMsg × Option String :=
  let sent' := sent ++ [OutMsg.response response_text]
  match tts response_text with
  | .ok audio => (sent' ++ [OutMsg.audioOut audio], none)
  | .error e => (sent', some e)

/-- The body of `_process_text_message` inside its `try`: the outbound
frames sent so far, paired with the uncaught exception if one was
raised.  `llm` is the completion engine (both providers have the same
shape), `addFact` the store write, `tts` the synthesis engine; `sel`
resolves `random.choice`. -/
def processTextCore (llm : List ChatMsg → Except String String)
    (getFacts : String → String → Nat → Except PyErr (List String))
    (addFact : String → String → Except String Unit)
    (tts : String → Except String (List Int))
    (sel : Nat) (user_id system_prompt text : String) : List OutMsg × Option String :=
  let sent0 := [OutMsg.transcription text]
  let response_text :=
    match llm (build_messages getFacts user_id text system_prompt) with
    | .ok r => r
    | .error _ => generateFallbackResponse text sel
  match maybe_extract_fact text with
  | some fact =>
    match addFact user_id fact with
    | .error e => (sent0, some e)
    | .ok _ => replyAndTts tts sent0 response_text
  | none => replyAndTts tts sent0 response_text

/-- `_process_text_message` with its outer `except Exception` block:
any exception raised by the body is turned into an outbound `error`
frame, so the coroutine itself never raises. -/
def processTextMessage (llm : List ChatMsg → Except String String)
    (getFacts : String → String → Nat → Except PyErr (List String))
    (addFact : String → String → Except String Unit)
    (tts : String → Except String (List Int))
    (sel : Nat) (user_id system_prompt text : String) : List OutMsg :=
  match processTextCore llm getFacts addFact tts sel user_id system_prompt text with
  | (sent, none) => sent
  | (sent, some e) => sent ++ [OutMsg.errMsg ("Error processing text message: " ++ e)]

/-! ## backend/websocket_handler.py — VAD segmentation

Time is modelled in integer milliseconds; the source's
`SILENCE_DURATION = 1.5` seconds becomes 1500 ms.  A chunk carries its
arrival time, its voiced/unvoiced classification (the source compares
the chunk's norm against `vad_threshold`; the claims quantify over the
classification) and its sample count.  `asyncio.create_task` of
`_process_audio` is modelled as the task running at once: the step
that schedules it already shows its state effects (recording flag
cleared, buffer cleared by the `finally: clear()`). -/

/-- SILENCE_DURATION (1.5 s) in milliseconds. -/
def SILENCE_DURATION_MS : Nat := 1500

/-- The VAD-relevant per-connection state of the handler: the buffer
window indices, the recording flag of the buffer, and the two VAD
timestamps. -/
structure VadState where
  bufStart : Nat
  bufEnd : Nat
  isRecording : Bool
  lastAudioTime : Nat
  silenceStart : Option Nat
deriving DecidableEq, Repr

/-- One ingested audio chunk. -/
structure Chunk where
  time : Nat
  voiced : Bool
  len : Nat
deriving DecidableEq, Repr

/-- The index arithmetic of `AudioBuffer.append` over a buffer of `n`
samples (chunks of the stream's CHUNK_SIZE are far below the
capacity, so the slice assignments cannot fail and only the indices
matter here). -/
def windowAppend (n s e c : Nat) : Nat × Nat :=
  if c = 0 then (s, e)
  else
    let window := (e + n - s) % n
    let available := n - window
    let s' := if available < c then (s + (c - available)) % n else s
    (s', (e + c) % n)

/-- One execution of `audio_callback` on one chunk, over a buffer of
`n` samples.  Returns the new state and whether an end-of-speech
hand-off (`_process_audio`) was triggered.  A hand-off clears the
recording flag and, through `finally: clear()`, resets both window
indices to zero. -/
def vadStep (n : Nat) (s : VadState) (ch : Chunk) : VadState × Bool :=
  if ch.len = 0 then (s, false)
  else
    let w := windowAppend n s.bufStart s.bufEnd ch.len
    let s := { s with bufStart := w.1, bufEnd := w.2 }
    if ch.voiced then
      ({ s with lastAudioTime := ch.time, silenceStart := none, isRecording := true },
       false)
    else if s.isRecording then
      let ss := s.silenceStart.getD ch.time
      if SILENCE_DURATION_MS ≤ ch.time - ss then
        ({ s with silenceStart := some ss, isRecording := false,
                  bufStart := 0, bufEnd := 0 }, true)
      else
        ({ s with silenceStart := some ss }, false)
    else (s, false)

/-- Feed a list of chunks through `vadStep`, counting the hand-offs. -/
def vadRun (n : Nat) (s : VadState) : List Chunk → VadState × Nat
  | [] => (s, 0)
  | ch :: rest =>
    let p := vadStep n s ch
    let q := vadRun n p.1 rest
    (q.1, (if p.2 then 1 else 0) + q.2)

/-! ## backend/websocket_handler.py — handler construction and config -/

/-- SILENCE_THRESHOLD constant of the source (0.01), as an exact
rational. -/
def SILENCE_THRESHOLD : ℚ := 1 / 100

/-- The scalar fields of the handler that `__init__` and
`_handle_message` assign. -/
structure HState where
  isListening : Bool
  vadThreshold : ℚ
  currentUserId : Option String
deriving DecidableEq, Repr

/-- VTuberWebSocketHandler.__init__ as the source's assignment
sequence: `vad_threshold` is first set to SILENCE_THRESHOLD and then
re-assigned 0.5 a few lines later; `current_user_id` is first None and
then "default". -/
def initHandler : HState :=
  let s1 : HState := { isListening := false, vadThreshold := SILENCE_THRESHOLD,
                       currentUserId := none }
  let s2 := { s1 with vadThreshold := (1 / 2 : ℚ) }
  { s2 with currentUserId := some "default" }

/-- Inbound control messages, by their `type` field; `audioConfig`
carries the optional `vad_threshold` entry. -/
inductive InMsg where
  | startListening
  | stopListening
  | textMsg (text : String)
  | audioConfig (vad_threshold : Option ℚ)
  | ping
  | unknown
deriving DecidableEq, Repr

/-- The effect of `_handle_message` on the handler's scalar state
(outbound frames and the typed-text turn do not assign these
fields). -/
def handleMessageState (s : HState) (m : InMsg) : HState :=
  match m with
  | .startListening => { s with isListening := true }
  | .stopListening => { s with isListening := false }
  | .textMsg _ => s
  | .audioConfig (some v) => { s with vadThreshold := v }
  | .audioConfig none => s
  | .ping => s
  | .unknown => s

/-! ## Helper lemmas -/

/-- A string whose first character is not whitespace does not strip to
the empty string. -/
lemma pyStrip_ne_empty_of_head (s : String) (c : Char) (l : List Char)
    (hd : s.data = c :: l) (hc : c.isWhitespace = false) : pyStrip s ≠ "" := by
  unfold pyStrip
  rw [hd]
  intro h
  have hdata : (((c :: l).dropWhile Char.isWhitespace).reverse.dropWhile
      Char.isWhitespace).reverse = [] := by
    simpa using congrArg String.data h
  rw [List.dropWhile_cons, hc] at hdata
  simp only [Bool.false_eq_true, if_false, List.reverse_eq_nil_iff,
    List.dropWhile_eq_nil_iff] at hdata
  have := hdata c (by simp)
  simp [hc] at this

/-- The joined memory block over a nonempty fact list starts with the
bullet dash. -/
lemma joinLines_dash_head (f : String) (xs : List String) :
    ∃ l, (joinLines (("- " ++ f) :: xs)).data = '-' :: l := by
  cases xs with
  | nil =>
    exact ⟨' ' :: f.data, by simp [joinLines, String.data_append]⟩
  | cons y ys =>
    exact ⟨' ' :: (f.data ++ '\n' :: (joinLines (y :: ys)).data),
      by simp [joinLines, String.data_append]⟩

/-- `pickChoice` always returns an element of a nonempty list. -/
lemma pickChoice_mem (l : List String) (hl : l ≠ []) (sel : Nat) :
    pickChoice l sel ∈ l := by
  unfold pickChoice
  have hlen : 0 < l.length := List.length_pos.mpr hl
  have hlt : sel % l.length < l.length := Nat.mod_lt _ hlen
  rw [List.getD_eq_getElem l "" hlt]
  exact List.getElem_mem hlt

/-- The fallback reply always comes from one of the four canned
reply lists. -/
lemma generateFallback_mem (text : String) (sel : Nat) :
    generateFallbackResponse text sel ∈
      greetingReplies ++ questionReplies ++ complimentReplies ++ defaultReplies := by
  unfold generateFallbackResponse
  simp only
  split
  · simp only [List.mem_append]
    exact Or.inl (Or.inl (Or.inl (pickChoice_mem _ (by decide) _)))
  · split
    · simp only [List.mem_append]
      exact Or.inl (Or.inl (Or.inr (pickChoice_mem _ (by decide) _)))
    · split
      · simp only [List.mem_append]
        exact Or.inl (Or.inr (pickChoice_mem _ (by decide) _))
      · simp only [List.mem_append]
        exact Or.inr (pickChoice_mem _ (by decide) _)

/-- The fallback reply is never the empty string. -/
lemma generateFallback_ne_empty (text : String) (sel : Nat) :
    generateFallbackResponse text sel ≠ "" := by
  have hmem := generateFallback_mem text sel
  have hall : ∀ r ∈ greetingReplies ++ questionReplies ++ complimentReplies ++
      defaultReplies, r ≠ "" := by decide
  exact hall _ hmem

/-! ## Claims -/

/-- C1: the claim says `get_top_facts` never returns duplicate text.
The fallback loop consults `seen` but never extends it, so a store
holding the same fact text twice (the store does not deduplicate
writes) yields a duplicated fallback result: with two rows "oi" for
user "u" and a query scoring no fact positively, the function returns
["oi", "oi"]. -/
theorem c1_fallback_duplicates :
    get_top_facts [⟨"u", "oi", "t1"⟩, ⟨"u", "oi", "t2"⟩] "u" "banana" 6 = ["oi", "oi"] ∧
    ¬ (get_top_facts [⟨"u", "oi", "t1"⟩, ⟨"u", "oi", "t2"⟩] "u" "banana" 6).Nodup := by
  constructor
  · rfl
  · decide

/-- C2: the claim says `AudioBuffer.append` never raises, even for a
chunk larger than the capacity.  On a capacity-4 buffer, an empty
window and a 5-sample chunk, the write path computes the slice
`data[0:1]` for the 5-element source, and the numpy assignment raises
a broadcast error. -/
theorem c2_append_raises_on_oversized_chunk :
    AudioBuffer.append ⟨[0, 0, 0, 0], 0, 0⟩ [1, 1, 1, 1, 1] =
      Except.error ⟨"could not broadcast"⟩ := by
  rfl

/-- C3: the claim says a failing fact write never prevents the reply
from reaching the transport.  In `_process_text_message` the
`add_fact` call is made before the reply send and is not isolated: on
"Oi!" (which the extractor accepts) with a store whose write raises,
the turn delivers only the transcription echo and an error frame —
no `response` frame. -/
theorem c3_reply_lost_on_store_failure :
    processTextMessage (fun _ => .ok "resp") (fun _ _ _ => .ok [])
        (fun _ _ => .error "db down") (fun _ => .ok [7]) 0 "u" "sys" "Oi!" =
      [OutMsg.transcription "Oi!",
       OutMsg.errMsg "Error processing text message: db down"] := by
  rfl

/-- C8: `add_fact` with blank (whitespace-only) text is a silent no-op
leaving the store unchanged; with non-blank text it appends exactly
one row holding the trimmed text and the server-assigned timestamp,
leaving every existing row in place. -/
theorem c8_add_fact_frame :
    (∀ store user_id fact now, pyStrip fact = "" →
        add_fact store user_id fact now = store) ∧
    (∀ store user_id fact now, pyStrip fact ≠ "" →
        add_fact store user_id fact now = store ++ [⟨user_id, pyStrip fact, now⟩]) := by
  constructor
  · intro store user_id fact now h
    simp [add_fact, h]
  · intro store user_id fact now h
    simp [add_fact, h]

/-- Witness for C8 at concrete inputs: a whitespace-only text leaves
the empty store empty; a padded fact text is stored trimmed. -/
theorem c8_add_fact_witness :
    add_fact [] "u" "   " "t" = [] ∧
    add_fact [] "u" " Eu moro em SP " "t" = [⟨"u", "Eu moro em SP", "t"⟩] := by
  constructor
  · exact c8_add_fact_frame.1 [] "u" "   " "t" (by decide)
  · have h := c8_add_fact_frame.2 [] "u" " Eu moro em SP " "t" (by decide)
    rw [h]
    decide

/-- C10: after construction the effective VAD threshold is 0.5 — the
second assignment in `__init__` overrides the SILENCE_THRESHOLD
(0.01) written first — and only an `audio_config` message carrying a
`vad_threshold` value changes it. -/
theorem c10_vad_threshold_override :
    initHandler.vadThreshold = 1 / 2 ∧
    SILENCE_THRESHOLD = 1 / 100 ∧
    (∀ s v, (handleMessageState s (InMsg.audioConfig (some v))).vadThreshold = v) ∧
    (∀ s m, (∀ v, m ≠ InMsg.audioConfig (some v)) →
        (handleMessageState s m).vadThreshold = s.vadThreshold) := by
  refine ⟨rfl, rfl, fun s v => rfl, ?_⟩
  intro s m h
  cases m with
  | audioConfig o =>
    cases o with
    | none => rfl
    | some v => exact absurd rfl (h v)
  | startListening => rfl
  | stopListening => rfl
  | textMsg t => rfl
  | ping => rfl
  | unknown => rfl

/-- Witness for C10: a `ping` message leaves the threshold of the
freshly constructed handler unchanged. -/
theorem c10_vad_threshold_witness :
    (handleMessageState initHandler InMsg.ping).vadThreshold =
      initHandler.vadThreshold :=
  c10_vad_threshold_override.2.2.2 initHandler InMsg.ping
    (fun _ h => InMsg.noConfusion h)

/-- C4: `maybe_extract_fact` implements the ordered policy: blank
input gives none; a first-person declarative prefix returns the
trimmed original; otherwise an interrogative prefix gives none;
otherwise a short (at most 15 tokens) terminally punctuated statement
is returned verbatim; everything else gives none.  The three concrete
spec examples close the conjunction. -/
theorem c4_maybe_extract_fact_policy :
    (∀ s, pyStrip s = "" → maybe_extract_fact s = none) ∧
    (∀ s, pyStrip s ≠ "" →
        (factPatterns.any fun p => pyStartsWith (pyLower (pyStrip s)) p) = true →
        maybe_extract_fact s = some (pyStrip s)) ∧
    (∀ s, pyStrip s ≠ "" →
        (factPatterns.any fun p => pyStartsWith (pyLower (pyStrip s)) p) = false →
        (questionPatterns.any fun p => pyStartsWith (pyLower (pyStrip s)) p) = true →
        maybe_extract_fact s = none) ∧
    (∀ s, pyStrip s ≠ "" →
        (factPatterns.any fun p => pyStartsWith (pyLower (pyStrip s)) p) = false →
        (questionPatterns.any fun p => pyStartsWith (pyLower (pyStrip s)) p) = false →
        ((pySplit (pyStrip s)).length ≤ 15 &&
          (pyEndsWith (pyStrip s) "." || pyEndsWith (pyStrip s) "!" ||
            pyEndsWith (pyStrip s) "?")) = true →
        maybe_extract_fact s = some (pyStrip s)) ∧
    (∀ s, pyStrip s ≠ "" →
        (factPatterns.any fun p => pyStartsWith (pyLower (pyStrip s)) p) = false →
        (questionPatterns.any fun p => pyStartsWith (pyLower (pyStrip s)) p) = false →
        ((pySplit (pyStrip s)).length ≤ 15 &&
          (pyEndsWith (pyStrip s) "." || pyEndsWith (pyStrip s) "!" ||
            pyEndsWith (pyStrip s) "?")) = false →
        maybe_extract_fact s = none) ∧
    maybe_extract_fact "Meu nome é Ana." = some "Meu nome é Ana." ∧
    maybe_extract_fact "Qual é seu nome?" = none ∧
    maybe_extract_fact
      "uma duas tres quatro cinco seis sete oito nove dez onze doze treze quatorze quinze dezesseis dezessete dezoito dezenove vinte"
      = none := by
  refine ⟨?_, ?_, ?_, ?_, ?_, by decide, by decide, by decide⟩
  · intro s h1
    simp [maybe_extract_fact, h1]
  · intro s h1 h2
    simp [maybe_extract_fact, h1, h2]
  · intro s h1 h2 h3
    simp [maybe_extract_fact, h1, h2, h3]
  · intro s h1 h2 h3 h4
    simp [maybe_extract_fact, h1, h2, h3, h4]
  · intro s h1 h2 h3 h4
    simp [maybe_extract_fact, h1, h2, h3, h4]

/-- Witness for C4 instantiating each conditional conjunct at a
concrete input. -/
theorem c4_policy_witness :
    maybe_extract_fact "   " = none ∧
    maybe_extract_fact " Eu gosto de café " = some (pyStrip " Eu gosto de café ") ∧
    maybe_extract_fact "Onde fica a praia" = none ∧
    maybe_extract_fact "Hoje choveu muito." = some (pyStrip "Hoje choveu muito.") ∧
    maybe_extract_fact "Hoje choveu muito" = none :=
  ⟨c4_maybe_extract_fact_policy.1 "   " (by decide),
   c4_maybe_extract_fact_policy.2.1 " Eu gosto de café " (by decide) (by decide),
   c4_maybe_extract_fact_policy.2.2.1 "Onde fica a praia" (by decide) (by decide)
     (by decide),
   c4_maybe_extract_fact_policy.2.2.2.1 "Hoje choveu muito." (by decide) (by decide)
     (by decide) (by decide),
   c4_maybe_extract_fact_policy.2.2.2.2.1 "Hoje choveu muito" (by decide) (by decide)
     (by decide) (by decide)⟩

/-- C9: whenever `maybe_extract_fact` returns a string, that string is
exactly the whitespace-trimmed input: the extractor never rewrites,
truncates or fabricates content. -/
theorem c9_extract_verbatim (user_text result : String)
    (h : maybe_extract_fact user_text = some result) :
    result = pyStrip user_text := by
  unfold maybe_extract_fact at h
  simp only at h
  split at h
  · exact absurd h (by simp)
  · split at h
    · exact (Option.some.inj h).symm
    · split at h
      · exact absurd h (by simp)
      · split at h
        · exact (Option.some.inj h).symm
        · exact absurd h (by simp)

/-- Witness for C9: the extractor's output on a padded short statement
is its trimmed form. -/
theorem c9_extract_verbatim_witness : ("Oi!" : String) = pyStrip " Oi! " :=
  c9_extract_verbatim " Oi! " "Oi!" (by decide)

/-- C5, not as frozen: the frozen claim quantifies over every
typed-text turn with a failing completion engine, but when the
fact-store write also raises the reply is never delivered (see
`c5_reply_counterexample`).  Amended claim: when the completion engine
fails on a typed-text turn and the fact-store write does not raise,
the coordinator delivers the canned fallback reply chosen by keyword
category, the reply is non-empty and drawn from the canned reply
lists, and the turn function returns normally (the embedding is a
total function: the outer handler converts any exception into an
error frame). -/
theorem c5_fallback_reply_delivered (err : String)
    (getFacts : String → String → Nat → Except PyErr (List String))
    (addFact : String → String → Except String Unit)
    (tts : String → Except String (List Int)) (sel : Nat)
    (user_id system_prompt text : String)
    (hAdd : ∀ f, addFact user_id f = .ok ()) :
    OutMsg.response (generateFallbackResponse text sel) ∈
      processTextMessage (fun _ => .error err) getFacts addFact tts sel
        user_id system_prompt text ∧
    generateFallbackResponse text sel ≠ "" ∧
    generateFallbackResponse text sel ∈
      greetingReplies ++ questionReplies ++ complimentReplies ++ defaultReplies := by
  refine ⟨?_, generateFallback_ne_empty text sel, generateFallback_mem text sel⟩
  unfold processTextMessage processTextCore
  simp only
  cases hf : maybe_extract_fact text with
  | none =>
    unfold replyAndTts
    cases ht : tts (generateFallbackResponse text sel) with
    | ok audio => simp [hf, ht]
    | error e => simp [hf, ht]
  | some fact =>
    have := hAdd fact
    unfold replyAndTts
    cases ht : tts (generateFallbackResponse text sel) with
    | ok audio => simp [hf, this, ht]
    | error e => simp [hf, this, ht]

/-- Witness for C5 on a greeting input with an always-failing
completion engine and a well-behaved store. -/
theorem c5_fallback_witness :
    OutMsg.response (generateFallbackResponse "Oi!" 0) ∈
      processTextMessage (fun _ => .error "down") (fun _ _ _ => .ok [])
        (fun _ _ => .ok ()) (fun _ => .ok [7]) 0 "u" "sys" "Oi!" ∧
    generateFallbackResponse "Oi!" 0 ≠ "" ∧
    generateFallbackResponse "Oi!" 0 ∈
      greetingReplies ++ questionReplies ++ complimentReplies ++ defaultReplies :=
  c5_fallback_reply_delivered "down" (fun _ _ _ => .ok []) (fun _ _ => .ok ())
    (fun _ => .ok [7]) 0 "u" "sys" "Oi!" (fun _ => rfl)

/-- Counterexample to C5 as frozen: on the typed-text turn "Oi!" with
the completion engine failing AND the fact-store write raising, the
coordinator computes the fallback reply but never delivers it — the
output holds only the transcription echo and an error frame, with no
`response` frame. -/
theorem c5_reply_counterexample :
    OutMsg.response (generateFallbackResponse "Oi!" 0) ∉
      processTextMessage (fun _ => .error "down") (fun _ _ _ => .ok [])
        (fun _ _ => .error "db unavailable") (fun _ => .ok [7]) 0 "u" "sys" "Oi!" ∧
    processTextMessage (fun _ => .error "down") (fun _ _ _ => .ok [])
        (fun _ _ => .error "db unavailable") (fun _ => .ok [7]) 0 "u" "sys" "Oi!" =
      [OutMsg.transcription "Oi!",
       OutMsg.errMsg "Error processing text message: db unavailable"] := by
  exact ⟨by decide, rfl⟩

/-- C6: `build_messages` always returns exactly two messages — a
system message first and the user utterance second.  When the
limit-6 facts lookup fails or returns no facts, the system content is
the unmodified system prompt; when it returns facts, the system
content is the prompt extended with the fixed introductory line and
the bulleted block. -/
theorem c6_build_messages_shape :
    (∀ getFacts user_id user_text system_prompt, ∃ c,
        build_messages getFacts user_id user_text system_prompt =
          [⟨"system", c⟩, ⟨"user", user_text⟩]) ∧
    (∀ getFacts user_id user_text system_prompt e,
        getFacts user_id user_text 6 = .error e →
        build_messages getFacts user_id user_text system_prompt =
          [⟨"system", system_prompt⟩, ⟨"user", user_text⟩]) ∧
    (∀ getFacts user_id user_text system_prompt,
        getFacts user_id user_text 6 = .ok [] →
        build_messages getFacts user_id user_text system_prompt =
          [⟨"system", system_prompt⟩, ⟨"user", user_text⟩]) ∧
    (∀ getFacts user_id user_text system_prompt f fs,
        getFacts user_id user_text 6 = .ok (f :: fs) →
        build_messages getFacts user_id user_text system_prompt =
          [⟨"system", system_prompt ++ memoryIntro ++
              joinLines ((f :: fs).map fun x => "- " ++ x)⟩,
           ⟨"user", user_text⟩]) := by
  refine ⟨?_, ?_, ?_, ?_⟩
  · intro gf uid ut sp
    unfold build_messages
    cases gf uid ut 6 with
    | error e => exact ⟨sp, rfl⟩
    | ok facts => exact ⟨_, rfl⟩
  · intro gf uid ut sp e h
    unfold build_messages
    rw [h]
  · intro gf uid ut sp h
    unfold build_messages
    rw [h]
    rfl
  · intro gf uid ut sp f fs h
    unfold build_messages
    rw [h]
    simp only [List.isEmpty_cons, List.map_cons, Bool.false_eq_true, if_false]
    obtain ⟨l, hl⟩ := joinLines_dash_head f (fs.map fun x => "- " ++ x)
    rw [if_neg (pyStrip_ne_empty_of_head _ '-' l hl (by decide))]

/-- Witness for C6 at concrete oracles: a failing store, an empty
result and a one-fact result. -/
theorem c6_build_messages_witness :
    build_messages (fun _ _ _ => .error ⟨"db"⟩) "u" "hi" "SYS" =
      [⟨"system", "SYS"⟩, ⟨"user", "hi"⟩] ∧
    build_messages (fun _ _ _ => .ok []) "u" "hi" "SYS" =
      [⟨"system", "SYS"⟩, ⟨"user", "hi"⟩] ∧
    build_messages (fun _ _ _ => .ok ["f1"]) "u" "hi" "SYS" =
      [⟨"system", "SYS" ++ memoryIntro ++ joinLines (["f1"].map fun x => "- " ++ x)⟩,
       ⟨"user", "hi"⟩] :=
  ⟨c6_build_messages_shape.2.1 (fun _ _ _ => .error ⟨"db"⟩) "u" "hi" "SYS" ⟨"db"⟩ rfl,
   c6_build_messages_shape.2.2.1 (fun _ _ _ => .ok []) "u" "hi" "SYS" rfl,
   c6_build_messages_shape.2.2.2 (fun _ _ _ => .ok ["f1"]) "u" "hi" "SYS" "f1" [] rfl⟩

/-- An unvoiced chunk while not recording neither triggers a hand-off
nor starts recording. -/
lemma vadStep_not_recording (n : Nat) (s : VadState) (ch : Chunk)
    (hv : ch.voiced = false) (hr : s.isRecording = false) :
    (vadStep n s ch).2 = false ∧ (vadStep n s ch).1.isRecording = false := by
  by_cases hlen : ch.len = 0
  · simp [vadStep, hlen, hr]
  · simp [vadStep, hlen, hv, hr]

/-- Once the recording flag is down, a run of unvoiced chunks triggers
no hand-off. -/
lemma vadRun_no_handoff (n : Nat) : ∀ (chunks : List Chunk) (s : VadState),
    s.isRecording = false → (∀ ch ∈ chunks, ch.voiced = false) →
    (vadRun n s chunks).2 = 0 := by
  intro chunks
  induction chunks with
  | nil => intro s _ _; rfl
  | cons ch rest ih =>
    intro s hr hall
    have h1 := vadStep_not_recording n s ch (hall ch (by simp)) hr
    have h2 := ih (vadStep n s ch).1 h1.2 fun c hc => hall c (by simp [hc])
    simp only [vadRun]
    simp [h1.1, h2]

/-- From a recording state whose silence timer is already running at
`t0`, a run of nonempty unvoiced chunks in which some chunk arrives at
least SILENCE_DURATION after `t0` triggers exactly one hand-off. -/
lemma vadRun_trailing (n : Nat) : ∀ (chunks : List Chunk) (s : VadState) (t0 : Nat),
    s.isRecording = true → s.silenceStart = some t0 →
    (∀ ch ∈ chunks, ch.voiced = false ∧ ch.len ≠ 0) →
    (∃ ch ∈ chunks, t0 + SILENCE_DURATION_MS ≤ ch.time) →
    (vadRun n s chunks).2 = 1 := by
  intro chunks
  induction chunks with
  | nil => intro s t0 _ _ _ hex; simp at hex
  | cons ch rest ih =>
    intro s t0 hr hss hall hex
    obtain ⟨hv, hlen⟩ := hall ch (by simp)
    by_cases ht : t0 + SILENCE_DURATION_MS ≤ ch.time
    · have hd : SILENCE_DURATION_MS ≤ ch.time - t0 := by omega
      have hstep2 : (vadStep n s ch).2 = true := by
        simp [vadStep, hlen, hv, hr, hss, hd]
      have hrec : (vadStep n s ch).1.isRecording = false := by
        simp [vadStep, hlen, hv, hr, hss, hd]
      have h0 := vadRun_no_handoff n rest (vadStep n s ch).1 hrec
        fun c hc => (hall c (by simp [hc])).1
      simp only [vadRun]
      simp [hstep2, h0]
    · have hD : SILENCE_DURATION_MS = 1500 := rfl
      have hd : ¬ SILENCE_DURATION_MS ≤ ch.time - t0 := by omega
      have hstep2 : (vadStep n s ch).2 = false := by
        simp [vadStep, hlen, hv, hr, hss, hd]
      have h1 : (vadStep n s ch).1.isRecording = true := by
        simp [vadStep, hlen, hv, hr, hss, hd]
      have h2 : (vadStep n s ch).1.silenceStart = some t0 := by
        simp [vadStep, hlen, hv, hr, hss, hd]
      have hex' : ∃ c ∈ rest, t0 + SILENCE_DURATION_MS ≤ c.time := by
        obtain ⟨c, hc, hct⟩ := hex
        rcases List.mem_cons.mp hc with rfl | hc'
        · exact absurd hct ht
        · exact ⟨c, hc', hct⟩
      have h3 := ih (vadStep n s ch).1 t0 h1 h2
        (fun c hc => hall c (by simp [hc])) hex'
      simp only [vadRun]
      simp [hstep2, h3]

/-- C7: the VAD step relation of `audio_callback` (with the
`_process_audio` task modelled as running at the hand-off point):
a voiced chunk records its arrival time, clears the silence timer and
puts the machine in the recording state; a step that hands off leaves
the buffer cleared and the recording flag down; and from a recording
state with no silence timer, a run of unvoiced chunks spanning at
least SILENCE_DURATION triggers exactly one hand-off. -/
theorem c7_vad_single_handoff :
    (∀ (n : Nat) (s : VadState) (ch : Chunk), ch.voiced = true → ch.len ≠ 0 →
        (vadStep n s ch).2 = false ∧
        (vadStep n s ch).1.lastAudioTime = ch.time ∧
        (vadStep n s ch).1.silenceStart = none ∧
        (vadStep n s ch).1.isRecording = true) ∧
    (∀ (n : Nat) (s : VadState) (ch : Chunk), (vadStep n s ch).2 = true →
        (vadStep n s ch).1.bufStart = 0 ∧ (vadStep n s ch).1.bufEnd = 0 ∧
        (vadStep n s ch).1.isRecording = false) ∧
    (∀ (n : Nat) (s : VadState) (c0 : Chunk) (rest : List Chunk),
        s.isRecording = true → s.silenceStart = none →
        (∀ ch ∈ c0 :: rest, ch.voiced = false ∧ ch.len ≠ 0) →
        (∃ ch ∈ rest, c0.time + SILENCE_DURATION_MS ≤ ch.time) →
        (vadRun n s (c0 :: rest)).2 = 1) := by
  refine ⟨?_, ?_, ?_⟩
  · intro n s ch hv hlen
    simp [vadStep, hlen, hv]
  · intro n s ch h
    by_cases hlen : ch.len = 0
    · simp [vadStep, hlen] at h
    · by_cases hv : ch.voiced = true
      · simp [vadStep, hlen, hv] at h
      · rw [Bool.not_eq_true] at hv
        by_cases hr : s.isRecording = true
        · by_cases hd : SILENCE_DURATION_MS ≤ ch.time - s.silenceStart.getD ch.time
          · simp [vadStep, hlen, hv, hr, hd]
          · simp [vadStep, hlen, hv, hr, hd] at h
        · rw [Bool.not_eq_true] at hr
          simp [vadStep, hlen, hv, hr] at h
  · intro n s c0 rest hr hss hall hex
    obtain ⟨hv, hlen⟩ := hall c0 (by simp)
    have hstep2 : (vadStep n s c0).2 = false := by
      simp [vadStep, SILENCE_DURATION_MS, hlen, hv, hr, hss]
    have h1 : (vadStep n s c0).1.isRecording = true := by
      simp [vadStep, SILENCE_DURATION_MS, hlen, hv, hr, hss]
    have h2 : (vadStep n s c0).1.silenceStart = some c0.time := by
      simp [vadStep, SILENCE_DURATION_MS, hlen, hv, hr, hss]
    have h3 := vadRun_trailing n rest (vadStep n s c0).1 c0.time h1 h2
      (fun c hc => hall c (by simp [hc])) hex
    simp only [vadRun]
    simp [hstep2, h3]

/-- Witness for C7 at concrete states: a voiced chunk from idle, a
hand-off step from a trailing state, and a two-chunk silence run
producing exactly one hand-off. -/
theorem c7_vad_witness :
    ((vadStep 8 ⟨0, 0, false, 0, none⟩ ⟨5, true, 1⟩).2 = false ∧
      (vadStep 8 ⟨0, 0, false, 0, none⟩ ⟨5, true, 1⟩).1.lastAudioTime = 5 ∧
      (vadStep 8 ⟨0, 0, false, 0, none⟩ ⟨5, true, 1⟩).1.silenceStart = none ∧
      (vadStep 8 ⟨0, 0, false, 0, none⟩ ⟨5, true, 1⟩).1.isRecording = true) ∧
    ((vadStep 8 ⟨0, 2, true, 0, some 0⟩ ⟨1500, false, 1⟩).1.bufStart = 0 ∧
      (vadStep 8 ⟨0, 2, true, 0, some 0⟩ ⟨1500, false, 1⟩).1.bufEnd = 0 ∧
      (vadStep 8 ⟨0, 2, true, 0, some 0⟩ ⟨1500, false, 1⟩).1.isRecording = false) ∧
    (vadRun 8 ⟨0, 0, true, 0, none⟩ [⟨0, false, 1⟩, ⟨1500, false, 1⟩]).2 = 1 :=
  ⟨c7_vad_single_handoff.1 8 ⟨0, 0, false, 0, none⟩ ⟨5, true, 1⟩ rfl (by decide),
   c7_vad_single_handoff.2.1 8 ⟨0, 2, true, 0, some 0⟩ ⟨1500, false, 1⟩ (by decide),
   c7_vad_single_handoff.2.2 8 ⟨0, 0, true, 0, none⟩ ⟨0, false, 1⟩ [⟨1500, false, 1⟩]
     rfl rfl (by decide) (by decide)⟩

end NathyVtuber
